import Mathlib

/-!
# The `gh` executor plugin (`cmd/gh/main.go`)

A shallow embedding of the plugin's request pipeline: parse the command, collect
diagnostics with two `kubectl` invocations, render the issue body from the configured
template, publish the issue with one `gh` invocation, and answer with a text message.

Everything the Go file calls but does not define is a field of `Host`: the `pluginx`
helpers (`MergeExecutorConfigs`, `ParseCommand`, `ExecuteCommand`), the `html/template`
parser, and the Unicode printability table behind the `%q` verb.  Shell invocations are
recorded, oldest first, in a trace that every function threads through.
-/

namespace GhPlugin

/-! ## Go values -/

/-- A Go `error` value; the nil error is `none : Option GoError`.  Go strings are taken
to be valid UTF-8, so that a `String` is the sequence of its runes. -/
abbrev GoError := String

/-- How a Go call ends: it returns a value, or the goroutine panics. -/
inductive Outcome (α : Type) where
  | panic : Outcome α
  | ret : α → Outcome α
  deriving DecidableEq, Repr

/-- Operands of `fmt.Sprintf` that occur in the program. -/
inductive Arg where
  | str (s : String)
  | int (n : Int)

/-! ## Constants and data model -/

def pluginName : String := "gh"

def logsTailLines : Int := 150

def defaultNamespace : String := "default"

/-- `CreateIssueCommand`: the positional `Type` (here `Type_`) and the `-n,--namespace`
flag. -/
structure CreateIssueCommand where
  Type_ : String
  Namespace : String
  deriving DecidableEq, Repr

/-- `CreateCommand`: the `issue` subcommand, `none` for a nil pointer. -/
structure CreateCommand where
  Issue : Option CreateIssueCommand
  deriving DecidableEq, Repr

/-- `Commands`: the `create` subcommand, `none` for a nil pointer. -/
structure Commands where
  Create : Option CreateCommand
  deriving DecidableEq, Repr

/-- The anonymous struct under `Config.GitHub`. -/
structure GitHubConfig where
  Token : String
  Repository : String
  IssueTemplate : String
  deriving DecidableEq, Repr

/-- `Config`: the GitHub executor configuration. -/
structure Config where
  GitHub : GitHubConfig
  deriving DecidableEq, Repr

/-- `IssueDetails`: what the template is executed on. -/
structure IssueDetails where
  Type_ : String
  Namespace : String
  Logs : String
  Version : String
  deriving DecidableEq, Repr

/-- `executor.ExecuteInput`: the raw configuration documents and the raw command line. -/
structure ExecuteInput where
  Configs : List String
  Command : String

/-- `executor.ExecuteOutput`. -/
structure ExecuteOutput where
  Data : String
  deriving DecidableEq, Repr

/-! ## External collaborators -/

/-- `template.FuncMap`, for helpers taking two strings and returning one. -/
abbrev FuncMap := List (String × (String → String → String))

/-- A parsed template, seen through its one use: executed on the diagnostics it writes
some text to the buffer and reports an error or nil. -/
abbrev Template := IssueDetails → String × Option GoError

/-- What the program calls and does not define.
* `MergeExecutorConfigs raw` is `cfg` after `pluginx.MergeExecutorConfigs(raw, &cfg)`;
* `ParseCommand name line` is `cmd` after `pluginx.ParseCommand(name, line, &cmd)`;
* `shell trace rawCmd` is what `pluginx.ExecuteCommand` returns for `rawCmd` when the
  commands of `trace` were run before it;
* `Parse name funcs text` is `template.New(name).Funcs(funcs).Parse(text)`, `none` when
  it reports an error (the returned `*Template` is then nil);
* `isPrintWide` is `strconv.IsPrint` on runes above U+00FF. -/
structure Host where
  MergeExecutorConfigs : List String → Config
  ParseCommand : String → String → Commands
  shell : List String → String → String × Option GoError
  Parse : String → FuncMap → String → Option Template
  isPrintWide : Char → Bool

/-- `pluginx.ExecuteCommand`: runs `rawCmd`, which is appended to the trace. -/
def ExecuteCommand (X : Host) (rawCmd : String) (trace : List String) :
    (String × Option GoError) × List String :=
  (X.shell trace rawCmd, trace ++ [rawCmd])

/-! ## `fmt.Sprintf` with the verbs the program uses -/

/-- The digit table `lowerhex` of `strconv`. -/
def lowerhex (n : Nat) : Char := "0123456789abcdef".data.getD n '0'

/-- `strconv.IsPrint`: the Latin-1 range is decided inline, the rest by table. -/
def IsPrint (wide : Char → Bool) (r : Char) : Bool :=
  if r.toNat ≤ 0xFF then
    if 0x20 ≤ r.toNat ∧ r.toNat ≤ 0x7E then true
    else if 0xA1 ≤ r.toNat ∧ r.toNat ≤ 0xFF then r.toNat != 0xAD
    else false
  else wide r

/-- `strconv.appendEscapedRune` for the double quote, neither ASCII-only nor graphic-only. -/
def appendEscapedRune (wide : Char → Bool) (r : Char) : List Char :=
  if r = '"' ∨ r = '\\' then ['\\', r]
  else if IsPrint wide r then [r]
  else if r = '\x07' then ['\\', 'a']
  else if r = '\x08' then ['\\', 'b']
  else if r = '\x0c' then ['\\', 'f']
  else if r = '\n' then ['\\', 'n']
  else if r = '\r' then ['\\', 'r']
  else if r = '\t' then ['\\', 't']
  else if r = '\x0b' then ['\\', 'v']
  else if r.toNat < 0x20 ∨ r.toNat = 0x7f then
    ['\\', 'x', lowerhex (r.toNat / 16 % 16), lowerhex (r.toNat % 16)]
  else if r.toNat < 0x10000 then
    '\\' :: 'u' :: [12, 8, 4, 0].map (fun s => lowerhex (r.toNat / 2 ^ s % 16))
  else
    '\\' :: 'U' :: [28, 24, 20, 16, 12, 8, 4, 0].map (fun s => lowerhex (r.toNat / 2 ^ s % 16))

/-- `strconv.Quote` on a string of valid runes: what `%q` prints for a string. -/
def Quote (wide : Char → Bool) (s : String) : String :=
  ⟨'"' :: (s.data.flatMap (appendEscapedRune wide) ++ ['"'])⟩

/-- The formatting loop of `fmt.Sprintf` for the verbs of the program's format strings:
`%s` and `%q` on a string and `%d` on an integer, each consuming one operand; every other
character of the format is copied.  A verb without a matching operand does not occur in
the program and is not modelled (it is copied as well). -/
def doPrintf (wide : Char → Bool) : List Char → List Arg → List Char
  | [], _ => []
  | '%' :: 's' :: fs, Arg.str s :: as => s.data ++ doPrintf wide fs as
  | '%' :: 'q' :: fs, Arg.str s :: as => (Quote wide s).data ++ doPrintf wide fs as
  | '%' :: 'd' :: fs, Arg.int n :: as => (toString n).data ++ doPrintf wide fs as
  | c :: fs, as => c :: doPrintf wide fs as

/-- `fmt.Sprintf(format, args...)`; the host supplies the printability table of `%q`. -/
def Sprintf (X : Host) (format : String) (args : List Arg) : String :=
  ⟨doPrintf X.isPrintWide format.data args⟩

/-! ## The program -/

/-- The `code` helper registered in `renderIssueBody`
(`func(syntax, in string) string`). -/
def code (X : Host) (syn inp : String) : String :=
  Sprintf X "\n```%s\n%s\n```\n" [.str syn, .str inp]

/-- `getIssueDetails(ctx, namespace, name)`: both `ExecuteCommand` errors are dropped and
the returned error is nil. -/
def getIssueDetails (X : Host) (namespace_ name : String) (trace : List String) :
    (IssueDetails × Option GoError) × List String :=
  let namespace_ := if namespace_ = "" then defaultNamespace else namespace_
  let logs := ExecuteCommand X
    (Sprintf X "kubectl logs %s -n %s --tail %d" [.str name, .str namespace_, .int logsTailLines])
    trace
  let ver := ExecuteCommand X "kubectl version -o yaml" logs.2
  (({ Type_ := name, Namespace := namespace_, Logs := logs.1.1, Version := ver.1.1 }, none),
    ver.2)

/-- `renderIssueBody(bodyTpl, data)`.  The parse error is dropped; on a nil template
`tmpl.Execute` dereferences it and panics.  The execution error is dropped as well and the
error result is always nil. -/
def renderIssueBody (X : Host) (bodyTpl : String) (data : IssueDetails) :
    Outcome (String × Option GoError) :=
  match X.Parse "issue-body" [("code", code X)] bodyTpl with
  | none => .panic
  | some tmpl => .ret ((tmpl data).1, none)

/-- `createGitHubIssue(cfg, title, mdBody)`: output and error of the one `gh` invocation. -/
def createGitHubIssue (X : Host) (cfg : Config) (title mdBody : String)
    (trace : List String) : (String × Option GoError) × List String :=
  let cmd := Sprintf X "GH_TOKEN=%s gh issue create --title %q --body \x27%s\x27 --label bug -R %s"
    [.str cfg.GitHub.Token, .str title, .str mdBody, .str cfg.GitHub.Repository]
  ExecuteCommand X cmd trace

/-- `GHExecutor.Execute`: the answer (or a panic) and the shell trace afterwards.
`cmd.Create.bind ..` is `none` exactly when `cmd.Create == nil || cmd.Create.Issue == nil`. -/
def Execute (X : Host) (inp : ExecuteInput) (trace : List String) :
    Outcome (ExecuteOutput × Option GoError) × List String :=
  let cfg := X.MergeExecutorConfigs inp.Configs
  let cmd := X.ParseCommand pluginName inp.Command
  match cmd.Create.bind (fun create => create.Issue) with
  | none =>
    (.ret ({ Data := Sprintf X "Usage: %s create issue KIND/NAME" [.str pluginName] }, none),
      trace)
  | some issue =>
    let issueDetails := getIssueDetails X issue.Namespace issue.Type_ trace
    match renderIssueBody X cfg.GitHub.IssueTemplate issueDetails.1.1 with
    | .panic => (.panic, issueDetails.2)
    | .ret mdBody =>
      let title := Sprintf X "The `%s` malfunctions" [.str issue.Type_]
      let issueURL := createGitHubIssue X cfg title mdBody.1 issueDetails.2
      (.ret ({ Data := Sprintf X "New issue created successfully! 🎉\n\nIssue URL: %s"
                [.str issueURL.1.1] }, none),
        issueURL.2)

/-! ## Concrete hosts for the examples -/

/-- A host that answers with the given configuration and parsed command and runs the given
shell.  Its template parser rejects the unclosed action `\x7b\x7b` and writes an
action-free text back unchanged; it is consulted on such templates only.  Its printability
table is not consulted: the examples stay within ASCII. -/
def fixedHost (cfg : Config) (cmd : Commands)
    (sh : List String → String → String × Option GoError) : Host where
  MergeExecutorConfigs := fun _ => cfg
  ParseCommand := fun _ _ => cmd
  shell := sh
  Parse := fun _ _ text => if text = "\x7b\x7b" then none else some (fun _ => (text, none))
  isPrintWide := fun _ => false

/-- A shell on which `kubectl` answers and `gh` prints the URL of the new issue. -/
def workingShell : List String → String → String × Option GoError :=
  fun _ rawCmd =>
    if "kubectl logs ".data.isPrefixOf rawCmd.data then ("line1\nline2", none)
    else if "kubectl version".data.isPrefixOf rawCmd.data then ("v1.26.0", none)
    else ("https://github.com/acme/widgets/issues/7", none)

/-- A shell on which both `kubectl` invocations fail and `gh` succeeds. -/
def noClusterShell : List String → String → String × Option GoError :=
  fun _ rawCmd =>
    if "kubectl".data.isPrefixOf rawCmd.data then ("", some "exit status 1")
    else ("https://github.com/acme/widgets/issues/7", none)

/-- A configuration whose template has no action. -/
def sampleConfig : Config :=
  { GitHub := { Token := "t", Repository := "acme/widgets", IssueTemplate := "Pod report" } }

/-- The parse of `create issue mypod -n prod`. -/
def sampleCommand : Commands :=
  { Create := some { Issue := some { Type_ := "mypod", Namespace := "prod" } } }

/-- A shell on which `kubectl` answers and `gh` fails. -/
def noTrackerShell : List String → String → String × Option GoError :=
  fun _ rawCmd =>
    if "kubectl logs ".data.isPrefixOf rawCmd.data then ("line1\nline2", none)
    else if "kubectl version".data.isPrefixOf rawCmd.data then ("v1.26.0", none)
    else ("", some "exit status 1")

/-- The host `fixedHost sampleConfig sampleCommand workingShell`, except that the access
token is read from the raw configuration documents. -/
def tokenHost : Host :=
  { fixedHost sampleConfig sampleCommand workingShell with
    MergeExecutorConfigs := fun raw =>
      { GitHub := { Token := String.join raw, Repository := "acme/widgets",
                    IssueTemplate := "Pod report" } } }

/-! ## Formatting lemmas -/

theorem toString_logsTailLines : (toString logsTailLines).data = ['1', '5', '0'] := by
  decide

theorem Quote_data (wide : Char → Bool) (s : String) :
    (Quote wide s).data = '"' :: (s.data.flatMap (appendEscapedRune wide) ++ ['"']) := rfl

theorem appendEscapedRune_plain (wide : Char → Bool) (r : Char)
    (h1 : r ≠ '"') (h2 : r ≠ '\\') (h3 : IsPrint wide r = true) :
    appendEscapedRune wide r = [r] := by
  simp [appendEscapedRune, h1, h2, h3]

theorem flatMap_appendEscapedRune_plain (wide : Char → Bool) (l : List Char)
    (h : ∀ c ∈ l, c ≠ '"' ∧ c ≠ '\\' ∧ IsPrint wide c = true) :
    l.flatMap (appendEscapedRune wide) = l := by
  induction l with
  | nil => rfl
  | cons c cs ih =>
    have hc := h c (List.mem_cons_self c cs)
    have hcs : ∀ d ∈ cs, d ≠ '"' ∧ d ≠ '\\' ∧ IsPrint wide d = true :=
      fun d hd => h d (List.mem_cons_of_mem c hd)
    simp [List.flatMap_cons, appendEscapedRune_plain wide c hc.1 hc.2.1 hc.2.2, ih hcs]

/-- On a string of printable runes without `"` and `\\`, `%q` only adds the quotes. -/
theorem Quote_plain (wide : Char → Bool) (s : String)
    (h : ∀ c ∈ s.data, c ≠ '"' ∧ c ≠ '\\' ∧ IsPrint wide c = true) :
    Quote wide s = "\"" ++ s ++ "\"" := by
  apply String.ext
  simp [Quote_data, flatMap_appendEscapedRune_plain wide s.data h]

theorem Sprintf_logs (X : Host) (name ns : String) :
    Sprintf X "kubectl logs %s -n %s --tail %d" [.str name, .str ns, .int logsTailLines]
      = "kubectl logs " ++ name ++ " -n " ++ ns ++ " --tail 150" := by
  apply String.ext
  simp [Sprintf, doPrintf, toString_logsTailLines]

theorem Sprintf_issue (X : Host) (token title mdBody repository : String) :
    Sprintf X "GH_TOKEN=%s gh issue create --title %q --body \x27%s\x27 --label bug -R %s"
        [.str token, .str title, .str mdBody, .str repository]
      = "GH_TOKEN=" ++ token ++ " gh issue create --title " ++ Quote X.isPrintWide title
          ++ " --body \x27" ++ mdBody ++ "\x27 --label bug -R " ++ repository := by
  apply String.ext
  simp [Sprintf, doPrintf]

theorem Sprintf_title (X : Host) (ty : String) :
    Sprintf X "The `%s` malfunctions" [.str ty] = "The `" ++ ty ++ "` malfunctions" := by
  apply String.ext
  simp [Sprintf, doPrintf]

theorem Sprintf_success (X : Host) (url : String) :
    Sprintf X "New issue created successfully! 🎉\n\nIssue URL: %s" [.str url]
      = "New issue created successfully! 🎉\n\nIssue URL: " ++ url := by
  apply String.ext
  simp [Sprintf, doPrintf]

theorem Sprintf_usage (X : Host) :
    Sprintf X "Usage: %s create issue KIND/NAME" [.str pluginName]
      = "Usage: gh create issue KIND/NAME" := by
  apply String.ext
  simp [Sprintf, doPrintf, pluginName]

/-! ## Diagnostics collection -/

/-- The commands `getIssueDetails` runs and the aggregate it returns, for any shell. -/
theorem getIssueDetails_eq (X : Host) (ns name : String) (trace : List String) :
    getIssueDetails X ns name trace =
      (({ Type_ := name,
          Namespace := if ns = "" then defaultNamespace else ns,
          Logs := (X.shell trace ("kubectl logs " ++ name ++ " -n "
            ++ (if ns = "" then defaultNamespace else ns) ++ " --tail 150")).1,
          Version := (X.shell (trace ++ ["kubectl logs " ++ name ++ " -n "
            ++ (if ns = "" then defaultNamespace else ns) ++ " --tail 150"])
            "kubectl version -o yaml").1 }, none),
        trace ++ ["kubectl logs " ++ name ++ " -n "
          ++ (if ns = "" then defaultNamespace else ns) ++ " --tail 150",
          "kubectl version -o yaml"]) := by
  simp [getIssueDetails, ExecuteCommand, Sprintf_logs]

/-- C5: with a non-empty namespace `ns`, `getIssueDetails` runs
`kubectl logs <name> -n <ns> --tail 150` (then `kubectl version -o yaml`) and returns, with
a nil error, details whose `Namespace` is `ns` and whose `Type` is `name`; for the parse of
`create issue foo/bar -n staging` the logs command is
`kubectl logs foo/bar -n staging --tail 150` and the namespace is `staging`. -/
theorem getIssueDetails_namespace_flag (X : Host) (name ns : String) (trace : List String)
    (hns : ns ≠ "") :
    ((getIssueDetails X ns name trace).2
        = trace ++ ["kubectl logs " ++ name ++ " -n " ++ ns ++ " --tail 150",
            "kubectl version -o yaml"]
      ∧ (getIssueDetails X ns name trace).1.1.Namespace = ns
      ∧ (getIssueDetails X ns name trace).1.1.Type_ = name
      ∧ (getIssueDetails X ns name trace).1.2 = none)
    ∧ ((getIssueDetails X "staging" "foo/bar" trace).2
        = trace ++ ["kubectl logs foo/bar -n staging --tail 150", "kubectl version -o yaml"]
      ∧ (getIssueDetails X "staging" "foo/bar" trace).1.1.Namespace = "staging") := by
  refine ⟨?_, ?_⟩
  · simp [getIssueDetails_eq, hns]
  · rw [getIssueDetails_eq]
    exact ⟨rfl, rfl⟩

/-- Witness of C5 on a cluster that answers: the namespace flag `prod` for `mypod`. -/
theorem getIssueDetails_namespace_flag_witness :
    (getIssueDetails (fixedHost sampleConfig sampleCommand workingShell) "prod" "mypod" []).2
        = ["kubectl logs mypod -n prod --tail 150", "kubectl version -o yaml"]
      ∧ (getIssueDetails (fixedHost sampleConfig sampleCommand workingShell) "prod" "mypod"
          []).1.1 = { Type_ := "mypod", Namespace := "prod", Logs := "line1\nline2",
                      Version := "v1.26.0" } := by
  have h := getIssueDetails_namespace_flag
    (fixedHost sampleConfig sampleCommand workingShell) "mypod" "prod" [] (by decide)
  refine ⟨by simpa using h.1.1, ?_⟩
  rw [getIssueDetails_eq]
  decide

/-- C6: without a namespace flag (the parsed `Namespace` is empty) the namespace that
`getIssueDetails` puts in the `kubectl logs` command and in the returned details is the
constant `defaultNamespace`, which is `default`. -/
theorem getIssueDetails_default_namespace (X : Host) (name : String) (trace : List String) :
    (getIssueDetails X "" name trace).2
        = trace ++ ["kubectl logs " ++ name ++ " -n " ++ defaultNamespace ++ " --tail 150",
            "kubectl version -o yaml"]
      ∧ (getIssueDetails X "" name trace).1.1.Namespace = defaultNamespace
      ∧ defaultNamespace = "default" := by
  refine ⟨?_, ?_, rfl⟩ <;> simp [getIssueDetails_eq]

/-! ## The code-fence helper -/

/-- C10: the `code` helper returns the language tag `s` after an opening fence on a new
line, then the content `c` unchanged on its own lines, then the closing fence:
`"\n` + three backticks + `s` + `\n` + `c` + `\n` + three backticks + `\n"`; on
`("yaml", "foo: bar")` this is the fenced block of the text `foo: bar` tagged `yaml`. -/
theorem code_fenced_block (X : Host) (s c : String) :
    code X s c = "\n```" ++ s ++ "\n" ++ c ++ "\n```\n"
      ∧ code X "yaml" "foo: bar" = "\n```yaml\nfoo: bar\n```\n" := by
  refine ⟨?_, ?_⟩
  · apply String.ext
    simp [code, Sprintf, doPrintf]
  · rfl

/-! ## The publish command -/

theorem createGitHubIssue_eq (X : Host) (cfg : Config) (title mdBody : String)
    (trace : List String) :
    createGitHubIssue X cfg title mdBody trace =
      (X.shell trace ("GH_TOKEN=" ++ cfg.GitHub.Token ++ " gh issue create --title "
          ++ Quote X.isPrintWide title ++ " --body \x27" ++ mdBody
          ++ "\x27 --label bug -R " ++ cfg.GitHub.Repository),
        trace ++ ["GH_TOKEN=" ++ cfg.GitHub.Token ++ " gh issue create --title "
          ++ Quote X.isPrintWide title ++ " --body \x27" ++ mdBody
          ++ "\x27 --label bug -R " ++ cfg.GitHub.Repository]) := by
  simp [createGitHubIssue, ExecuteCommand, Sprintf_issue]

/-- C4, refuted as stated: for the title of the resource `my"pod` the command that
`createGitHubIssue` runs carries the title with its double quotes escaped, which is not
the concatenation with the title unchanged. -/
theorem createGitHubIssue_title_not_verbatim :
    (createGitHubIssue (fixedHost sampleConfig sampleCommand workingShell) sampleConfig
        "The `my\"pod` malfunctions" "Pod report" []).2
      = ["GH_TOKEN=t gh issue create --title \"The `my\\\"pod` malfunctions\""
          ++ " --body \x27Pod report\x27 --label bug -R acme/widgets"]
    ∧ (createGitHubIssue (fixedHost sampleConfig sampleCommand workingShell) sampleConfig
        "The `my\"pod` malfunctions" "Pod report" []).2
      ≠ ["GH_TOKEN=" ++ "t" ++ " gh issue create --title \"" ++ "The `my\"pod` malfunctions"
          ++ "\" --body \x27" ++ "Pod report" ++ "\x27 --label bug -R " ++ "acme/widgets"] := by
  refine ⟨?_, ?_⟩ <;> decide

/-- C4, amended: the command that `createGitHubIssue` runs is
`GH_TOKEN=<token> gh issue create --title <quoted title> --body '<body>' --label bug -R
<repository>`, where the title goes through the `%q` verb (`strconv.Quote`: enclosed in
double quotes, with `"` and `\\` backslash-escaped and unprintable runes written as escape
sequences) and token, body and repository are embedded unchanged; when the title consists
of printable runes other than `"` and `\\`, the command is exactly
`GH_TOKEN=<token> gh issue create --title "<title>" --body '<body>' --label bug -R
<repository>` with the title unchanged. -/
theorem createGitHubIssue_command (X : Host) (cfg : Config) (title mdBody : String)
    (trace : List String) :
    (createGitHubIssue X cfg title mdBody trace).2
        = trace ++ ["GH_TOKEN=" ++ cfg.GitHub.Token ++ " gh issue create --title "
            ++ Quote X.isPrintWide title ++ " --body \x27" ++ mdBody
            ++ "\x27 --label bug -R " ++ cfg.GitHub.Repository]
      ∧ ((∀ r ∈ title.data, r ≠ '"' ∧ r ≠ '\\' ∧ IsPrint X.isPrintWide r = true) →
          (createGitHubIssue X cfg title mdBody trace).2
            = trace ++ ["GH_TOKEN=" ++ cfg.GitHub.Token ++ " gh issue create --title \""
                ++ title ++ "\" --body \x27" ++ mdBody
                ++ "\x27 --label bug -R " ++ cfg.GitHub.Repository]) := by
  refine ⟨by rw [createGitHubIssue_eq], fun h => ?_⟩
  have e : "GH_TOKEN=" ++ cfg.GitHub.Token ++ " gh issue create --title "
        ++ ("\"" ++ title ++ "\"") ++ " --body \x27" ++ mdBody
        ++ "\x27 --label bug -R " ++ cfg.GitHub.Repository
      = "GH_TOKEN=" ++ cfg.GitHub.Token ++ " gh issue create --title \""
        ++ title ++ "\" --body \x27" ++ mdBody
        ++ "\x27 --label bug -R " ++ cfg.GitHub.Repository := by
    apply String.ext
    simp
  rw [createGitHubIssue_eq, Quote_plain X.isPrintWide title h, e]

/-- Witness of C4 (amended): the title of the resource `mypod` is embedded unchanged. -/
theorem createGitHubIssue_command_witness :
    (createGitHubIssue (fixedHost sampleConfig sampleCommand workingShell) sampleConfig
        "The `mypod` malfunctions" "Pod report" []).2
      = ["GH_TOKEN=t gh issue create --title \"The `mypod` malfunctions\""
          ++ " --body \x27Pod report\x27 --label bug -R acme/widgets"] :=
  (createGitHubIssue_command (fixedHost sampleConfig sampleCommand workingShell) sampleConfig
    "The `mypod` malfunctions" "Pod report" []).2 (by decide)

/-! ## Rendering -/

theorem renderIssueBody_nil_template (X : Host) (bodyTpl : String) (data : IssueDetails)
    (h : X.Parse "issue-body" [("code", code X)] bodyTpl = none) :
    renderIssueBody X bodyTpl data = Outcome.panic := by
  simp [renderIssueBody, h]

theorem renderIssueBody_parsed (X : Host) (bodyTpl : String) (data : IssueDetails)
    (tmpl : Template) (h : X.Parse "issue-body" [("code", code X)] bodyTpl = some tmpl) :
    renderIssueBody X bodyTpl data = Outcome.ret ((tmpl data).1, none) := by
  simp [renderIssueBody, h]

/-- Whenever `renderIssueBody` returns, its error result is nil. -/
theorem renderIssueBody_error_nil (X : Host) (bodyTpl : String) (data : IssueDetails)
    (body : String) (err : Option GoError)
    (h : renderIssueBody X bodyTpl data = Outcome.ret (body, err)) : err = none := by
  unfold renderIssueBody at h
  split at h
  · cases h
  · injection h with h
    exact (congrArg Prod.snd h).symm

/-- C3, at the failing input: on the template `\x7b\x7b` (an unclosed action, which the
parser rejects, handing back a nil template) `renderIssueBody` panics instead of returning
an error result, and so does `Execute` when this template is configured, after the two
`kubectl` invocations and before any `gh` invocation. -/
theorem renderIssueBody_malformed_template_panics :
    (fixedHost sampleConfig sampleCommand workingShell).Parse "issue-body"
        [("code", code (fixedHost sampleConfig sampleCommand workingShell))] "\x7b\x7b"
      = none
    ∧ renderIssueBody (fixedHost sampleConfig sampleCommand workingShell) "\x7b\x7b"
        { Type_ := "mypod", Namespace := "prod", Logs := "line1\nline2", Version := "v1.26.0" }
      = Outcome.panic
    ∧ Execute
        (fixedHost { GitHub := { Token := "t", Repository := "acme/widgets",
                                 IssueTemplate := "\x7b\x7b" } } sampleCommand workingShell)
        { Configs := [], Command := "create issue mypod -n prod" } []
      = (Outcome.panic, ["kubectl logs mypod -n prod --tail 150", "kubectl version -o yaml"]) := by
  refine ⟨rfl, ?_, ?_⟩ <;> decide

/-! ## The orchestrator -/

theorem Execute_usage (X : Host) (inp : ExecuteInput) (trace : List String)
    (h : (X.ParseCommand pluginName inp.Command).Create.bind (fun create => create.Issue)
      = none) :
    Execute X inp trace
      = (Outcome.ret ({ Data := "Usage: gh create issue KIND/NAME" }, none), trace) := by
  simp [Execute, h, Sprintf_usage]

theorem Execute_panic (X : Host) (inp : ExecuteInput) (trace : List String)
    (issue : CreateIssueCommand)
    (h : (X.ParseCommand pluginName inp.Command).Create.bind (fun create => create.Issue)
      = some issue)
    (hr : renderIssueBody X (X.MergeExecutorConfigs inp.Configs).GitHub.IssueTemplate
      (getIssueDetails X issue.Namespace issue.Type_ trace).1.1 = Outcome.panic) :
    Execute X inp trace
      = (Outcome.panic, (getIssueDetails X issue.Namespace issue.Type_ trace).2) := by
  simp [Execute, h, hr]

theorem Execute_publish (X : Host) (inp : ExecuteInput) (trace : List String)
    (issue : CreateIssueCommand) (body : String) (err : Option GoError)
    (h : (X.ParseCommand pluginName inp.Command).Create.bind (fun create => create.Issue)
      = some issue)
    (hr : renderIssueBody X (X.MergeExecutorConfigs inp.Configs).GitHub.IssueTemplate
      (getIssueDetails X issue.Namespace issue.Type_ trace).1.1 = Outcome.ret (body, err)) :
    Execute X inp trace
      = (Outcome.ret ({ Data := "New issue created successfully! 🎉\n\nIssue URL: "
            ++ (createGitHubIssue X (X.MergeExecutorConfigs inp.Configs)
                  ("The `" ++ issue.Type_ ++ "` malfunctions") body
                  (getIssueDetails X issue.Namespace issue.Type_ trace).2).1.1 }, none),
          (createGitHubIssue X (X.MergeExecutorConfigs inp.Configs)
            ("The `" ++ issue.Type_ ++ "` malfunctions") body
            (getIssueDetails X issue.Namespace issue.Type_ trace).2).2) := by
  simp [Execute, h, hr, Sprintf_title, Sprintf_success]

theorem bind_Issue_of_branch (cmd : Commands) (create : CreateCommand)
    (issue : CreateIssueCommand) (hc : cmd.Create = some create)
    (hi : create.Issue = some issue) :
    cmd.Create.bind (fun create => create.Issue) = some issue := by
  simp [hc, hi]

/-- C2: when the parsed command lacks the `create issue` branch (`Create` is nil, or
`Create` is set and its `Issue` is nil), `Execute` returns the text
`Usage: gh create issue KIND/NAME` with a nil error and leaves the shell trace as it was:
neither `kubectl` nor `gh` is run. -/
theorem Execute_without_create_issue (X : Host) (inp : ExecuteInput) (trace : List String)
    (h : (X.ParseCommand pluginName inp.Command).Create = none
      ∨ ∃ create, (X.ParseCommand pluginName inp.Command).Create = some create
          ∧ create.Issue = none) :
    Execute X inp trace
      = (Outcome.ret ({ Data := "Usage: gh create issue KIND/NAME" }, none), trace) := by
  apply Execute_usage
  rcases h with h | ⟨create, hc, hi⟩
  · simp [h]
  · simp [hc, hi]

/-- Witness of C2: `create` alone (the `Create` branch without `Issue`) on a trace that
already holds a command. -/
theorem Execute_without_create_issue_witness :
    Execute (fixedHost sampleConfig { Create := some { Issue := none } } workingShell)
        { Configs := [], Command := "create" } ["kubectl get pods"]
      = (Outcome.ret ({ Data := "Usage: gh create issue KIND/NAME" }, none),
          ["kubectl get pods"]) :=
  Execute_without_create_issue
    (fixedHost sampleConfig { Create := some { Issue := none } } workingShell)
    { Configs := [], Command := "create" } ["kubectl get pods"]
    (Or.inr ⟨{ Issue := none }, rfl, rfl⟩)

/-- C1, refuted as stated: `kubectl` answers, the template renders, and the `gh`
invocation made by `createGitHubIssue` fails with `exit status 1`; `Execute` still returns
a nil error and the success text, with an empty issue URL. -/
theorem Execute_publish_failure_reported_as_success :
    (createGitHubIssue (fixedHost sampleConfig sampleCommand noTrackerShell) sampleConfig
        "The `mypod` malfunctions" "Pod report"
        ["kubectl logs mypod -n prod --tail 150", "kubectl version -o yaml"]).1
      = ("", some "exit status 1")
    ∧ Execute (fixedHost sampleConfig sampleCommand noTrackerShell)
        { Configs := [], Command := "create issue mypod -n prod" } []
      = (Outcome.ret ({ Data := "New issue created successfully! 🎉\n\nIssue URL: " }, none),
          ["kubectl logs mypod -n prod --tail 150", "kubectl version -o yaml",
            "GH_TOKEN=t gh issue create --title \"The `mypod` malfunctions\""
              ++ " --body \x27Pod report\x27 --label bug -R acme/widgets"]) := by
  refine ⟨?_, ?_⟩ <;> decide

/-- C1, amended: for every configuration and every command with the `create issue` branch
whose rendering returns a body, if the `gh` invocation made by `createGitHubIssue` fails
(returns output `out` and an error), the error is dropped: `Execute` returns a nil error
and the text `New issue created successfully! 🎉\n\nIssue URL: ` followed by `out`. -/
theorem Execute_publish_failure_dropped (X : Host) (inp : ExecuteInput)
    (trace : List String) (create : CreateCommand) (issue : CreateIssueCommand)
    (body out : String) (rerr : Option GoError) (e : GoError)
    (hc : (X.ParseCommand pluginName inp.Command).Create = some create)
    (hi : create.Issue = some issue)
    (hr : renderIssueBody X (X.MergeExecutorConfigs inp.Configs).GitHub.IssueTemplate
      (getIssueDetails X issue.Namespace issue.Type_ trace).1.1 = Outcome.ret (body, rerr))
    (hp : (createGitHubIssue X (X.MergeExecutorConfigs inp.Configs)
        ("The `" ++ issue.Type_ ++ "` malfunctions") body
        (getIssueDetails X issue.Namespace issue.Type_ trace).2).1 = (out, some e)) :
    (Execute X inp trace).1
      = Outcome.ret ({ Data := "New issue created successfully! 🎉\n\nIssue URL: " ++ out },
          none) := by
  rw [Execute_publish X inp trace issue body rerr (bind_Issue_of_branch _ create issue hc hi) hr,
    hp]

/-- Witness of C1 (amended): diagnostics and rendering succeed and `gh` fails. -/
theorem Execute_publish_failure_dropped_witness :
    (Execute (fixedHost sampleConfig sampleCommand noTrackerShell)
        { Configs := [], Command := "create issue mypod -n prod" } []).1
      = Outcome.ret ({ Data := "New issue created successfully! 🎉\n\nIssue URL: " ++ "" },
          none) :=
  Execute_publish_failure_dropped (fixedHost sampleConfig sampleCommand noTrackerShell)
    { Configs := [], Command := "create issue mypod -n prod" } []
    { Issue := some { Type_ := "mypod", Namespace := "prod" } }
    { Type_ := "mypod", Namespace := "prod" } "Pod report" "" none "exit status 1"
    rfl rfl (by decide) (by decide)

/-- C8: for every command with the `create issue` branch, when the publish step, run with
the title ``The `<type>` malfunctions`` built from the positional type and with the
rendered body, succeeds and returns `u`, `Execute` returns with a nil error the text
`New issue created successfully! 🎉\n\nIssue URL: ` followed by `u`; the publish command
it ran, last in the trace, carries that title. -/
theorem Execute_success_message (X : Host) (inp : ExecuteInput) (trace : List String)
    (create : CreateCommand) (issue : CreateIssueCommand)
    (body u : String) (rerr : Option GoError)
    (hc : (X.ParseCommand pluginName inp.Command).Create = some create)
    (hi : create.Issue = some issue)
    (hr : renderIssueBody X (X.MergeExecutorConfigs inp.Configs).GitHub.IssueTemplate
      (getIssueDetails X issue.Namespace issue.Type_ trace).1.1 = Outcome.ret (body, rerr))
    (hp : (createGitHubIssue X (X.MergeExecutorConfigs inp.Configs)
        ("The `" ++ issue.Type_ ++ "` malfunctions") body
        (getIssueDetails X issue.Namespace issue.Type_ trace).2).1 = (u, none)) :
    Execute X inp trace
      = (Outcome.ret ({ Data := "New issue created successfully! 🎉\n\nIssue URL: " ++ u },
            none),
          (getIssueDetails X issue.Namespace issue.Type_ trace).2
            ++ ["GH_TOKEN=" ++ (X.MergeExecutorConfigs inp.Configs).GitHub.Token
              ++ " gh issue create --title "
              ++ Quote X.isPrintWide ("The `" ++ issue.Type_ ++ "` malfunctions")
              ++ " --body \x27" ++ body ++ "\x27 --label bug -R "
              ++ (X.MergeExecutorConfigs inp.Configs).GitHub.Repository]) := by
  rw [Execute_publish X inp trace issue body rerr (bind_Issue_of_branch _ create issue hc hi) hr,
    hp]
  rw [createGitHubIssue_eq]

/-- Witness of C8: the tracker answers with the URL of issue 7. -/
theorem Execute_success_message_witness :
    Execute (fixedHost sampleConfig sampleCommand workingShell)
        { Configs := [], Command := "create issue mypod -n prod" } []
      = (Outcome.ret ({ Data := "New issue created successfully! 🎉\n\nIssue URL: "
            ++ "https://github.com/acme/widgets/issues/7" }, none),
          ["kubectl logs mypod -n prod --tail 150", "kubectl version -o yaml",
            "GH_TOKEN=t gh issue create --title \"The `mypod` malfunctions\""
              ++ " --body \x27Pod report\x27 --label bug -R acme/widgets"]) :=
  (Execute_success_message (fixedHost sampleConfig sampleCommand workingShell)
    { Configs := [], Command := "create issue mypod -n prod" } []
    { Issue := some { Type_ := "mypod", Namespace := "prod" } }
    { Type_ := "mypod", Namespace := "prod" } "Pod report"
    "https://github.com/acme/widgets/issues/7" none
    rfl rfl (by decide) (by decide)).trans (by decide)

/-- Failing diagnostics alone do not stop the pipeline.  Whatever the two `kubectl`
invocations return (output `lo`, `vo` and error or nil `le`, `ve`, in every combination),
`getIssueDetails` returns a nil error and details that echo the name as `Type` and the
effective namespace, with the outputs as `Logs` and `Version`; and `Execute`, when the
configured template parses, goes on to render these details and runs the publish command
exactly once, after the two `kubectl` commands, returning with a nil error. -/
theorem Execute_diagnostics_best_effort (X : Host) (inp : ExecuteInput)
    (trace : List String) (create : CreateCommand) (issue : CreateIssueCommand)
    (tmpl : Template) (ns lo vo : String) (le ve : Option GoError)
    (hc : (X.ParseCommand pluginName inp.Command).Create = some create)
    (hi : create.Issue = some issue)
    (ht : X.Parse "issue-body" [("code", code X)]
      (X.MergeExecutorConfigs inp.Configs).GitHub.IssueTemplate = some tmpl)
    (hns : ns = if issue.Namespace = "" then defaultNamespace else issue.Namespace)
    (hl : X.shell trace ("kubectl logs " ++ issue.Type_ ++ " -n " ++ ns ++ " --tail 150")
      = (lo, le))
    (hv : X.shell (trace ++ ["kubectl logs " ++ issue.Type_ ++ " -n " ++ ns ++ " --tail 150"])
      "kubectl version -o yaml" = (vo, ve)) :
    getIssueDetails X issue.Namespace issue.Type_ trace
        = (({ Type_ := issue.Type_, Namespace := ns, Logs := lo, Version := vo }, none),
            trace ++ ["kubectl logs " ++ issue.Type_ ++ " -n " ++ ns ++ " --tail 150",
              "kubectl version -o yaml"])
      ∧ renderIssueBody X (X.MergeExecutorConfigs inp.Configs).GitHub.IssueTemplate
          { Type_ := issue.Type_, Namespace := ns, Logs := lo, Version := vo }
        = Outcome.ret
            ((tmpl { Type_ := issue.Type_, Namespace := ns, Logs := lo, Version := vo }).1, none)
      ∧ (Execute X inp trace).2
        = trace ++ ["kubectl logs " ++ issue.Type_ ++ " -n " ++ ns ++ " --tail 150",
            "kubectl version -o yaml",
            "GH_TOKEN=" ++ (X.MergeExecutorConfigs inp.Configs).GitHub.Token
              ++ " gh issue create --title "
              ++ Quote X.isPrintWide ("The `" ++ issue.Type_ ++ "` malfunctions")
              ++ " --body \x27"
              ++ (tmpl { Type_ := issue.Type_, Namespace := ns, Logs := lo, Version := vo }).1
              ++ "\x27 --label bug -R "
              ++ (X.MergeExecutorConfigs inp.Configs).GitHub.Repository]
      ∧ (((Execute X inp trace).2.drop trace.length).filter
          (fun rawCmd => "GH_TOKEN=".data.isPrefixOf rawCmd.data)).length = 1
      ∧ ∃ out, (Execute X inp trace).1 = Outcome.ret (out, none) := by
  have hd : getIssueDetails X issue.Namespace issue.Type_ trace
      = (({ Type_ := issue.Type_, Namespace := ns, Logs := lo, Version := vo }, none),
          trace ++ ["kubectl logs " ++ issue.Type_ ++ " -n " ++ ns ++ " --tail 150",
            "kubectl version -o yaml"]) := by
    rw [getIssueDetails_eq, ← hns, hl, hv]
  have hr := renderIssueBody_parsed X (X.MergeExecutorConfigs inp.Configs).GitHub.IssueTemplate
    { Type_ := issue.Type_, Namespace := ns, Logs := lo, Version := vo } tmpl ht
  have he := Execute_publish X inp trace issue
    (tmpl { Type_ := issue.Type_, Namespace := ns, Logs := lo, Version := vo }).1 none
    (bind_Issue_of_branch _ create issue hc hi) (by rw [hd]; exact hr)
  rw [hd, createGitHubIssue_eq] at he
  refine ⟨hd, hr, ?_, ?_, ?_⟩
  · rw [he]; simp
  · rw [he]
    simp [List.filter_cons]
  · exact ⟨_, by rw [he]⟩

/-- Both `kubectl` invocations fail and the template `Pod report` parses: the issue is
still published, once. -/
theorem Execute_diagnostics_best_effort_witness :
    (Execute (fixedHost sampleConfig sampleCommand noClusterShell)
        { Configs := [], Command := "create issue mypod -n prod" } []).2
      = [] ++ ["kubectl logs " ++ "mypod" ++ " -n " ++ "prod" ++ " --tail 150",
          "kubectl version -o yaml",
          "GH_TOKEN=" ++ "t" ++ " gh issue create --title "
            ++ Quote (fun _ => false) ("The `" ++ "mypod" ++ "` malfunctions")
            ++ " --body \x27" ++ "Pod report" ++ "\x27 --label bug -R " ++ "acme/widgets"] :=
  (Execute_diagnostics_best_effort (fixedHost sampleConfig sampleCommand noClusterShell)
    { Configs := [], Command := "create issue mypod -n prod" } []
    { Issue := some { Type_ := "mypod", Namespace := "prod" } }
    { Type_ := "mypod", Namespace := "prod" } (fun _ => ("Pod report", none))
    "prod" "" "" (some "exit status 1") (some "exit status 1")
    rfl rfl rfl (by decide) (by decide) (by decide)).2.2.1

/-- C9, at the failing input: both `kubectl` invocations fail and the configured template
is `\x7b\x7b`, which the parser rejects.  `getIssueDetails` still returns a nil error and
the echoed name and namespace with empty logs and version, but `Execute` panics in
`renderIssueBody` right after the two `kubectl` commands: the publish step is run zero
times, not once. -/
theorem Execute_failed_diagnostics_malformed_template_no_publish :
    noClusterShell [] "kubectl logs mypod -n prod --tail 150" = ("", some "exit status 1")
    ∧ noClusterShell ["kubectl logs mypod -n prod --tail 150"] "kubectl version -o yaml"
      = ("", some "exit status 1")
    ∧ getIssueDetails
        (fixedHost { GitHub := { Token := "t", Repository := "acme/widgets",
                                 IssueTemplate := "\x7b\x7b" } } sampleCommand noClusterShell)
        "prod" "mypod" []
      = (({ Type_ := "mypod", Namespace := "prod", Logs := "", Version := "" }, none),
          ["kubectl logs mypod -n prod --tail 150", "kubectl version -o yaml"])
    ∧ Execute
        (fixedHost { GitHub := { Token := "t", Repository := "acme/widgets",
                                 IssueTemplate := "\x7b\x7b" } } sampleCommand noClusterShell)
        { Configs := [], Command := "create issue mypod -n prod" } []
      = (Outcome.panic, ["kubectl logs mypod -n prod --tail 150", "kubectl version -o yaml"])
    ∧ ((Execute
        (fixedHost { GitHub := { Token := "t", Repository := "acme/widgets",
                                 IssueTemplate := "\x7b\x7b" } } sampleCommand noClusterShell)
        { Configs := [], Command := "create issue mypod -n prod" } []).2.filter
          (fun rawCmd => "GH_TOKEN=".data.isPrefixOf rawCmd.data)).length = 0 := by
  refine ⟨?_, ?_, ?_, ?_, ?_⟩ <;> decide

/-- C7: the access token is not written to the title or the body.  For two inputs with the
same command whose configurations agree on repository and template (they differ in the
token only), whenever `Execute` reaches the publish step on the first it reaches it on the
second, and both pass to `createGitHubIssue` the same title and the same rendered body,
after the same `kubectl` commands; the two publish commands differ only in the token that
follows `GH_TOKEN=`. -/
theorem Execute_token_only_in_environment (X : Host) (inp₁ inp₂ : ExecuteInput)
    (trace pre : List String) (create : CreateCommand) (issue : CreateIssueCommand)
    (title body : String) (rerr : Option GoError)
    (hcmd : inp₁.Command = inp₂.Command)
    (hrepo : (X.MergeExecutorConfigs inp₁.Configs).GitHub.Repository
      = (X.MergeExecutorConfigs inp₂.Configs).GitHub.Repository)
    (htpl : (X.MergeExecutorConfigs inp₁.Configs).GitHub.IssueTemplate
      = (X.MergeExecutorConfigs inp₂.Configs).GitHub.IssueTemplate)
    (hc : (X.ParseCommand pluginName inp₁.Command).Create = some create)
    (hi : create.Issue = some issue)
    (hpre : pre = (getIssueDetails X issue.Namespace issue.Type_ trace).2)
    (htitle : title = "The `" ++ issue.Type_ ++ "` malfunctions")
    (hr : renderIssueBody X (X.MergeExecutorConfigs inp₁.Configs).GitHub.IssueTemplate
      (getIssueDetails X issue.Namespace issue.Type_ trace).1.1 = Outcome.ret (body, rerr)) :
    ((Execute X inp₁ trace).2
        = (createGitHubIssue X (X.MergeExecutorConfigs inp₁.Configs) title body pre).2
      ∧ (Execute X inp₂ trace).2
        = (createGitHubIssue X (X.MergeExecutorConfigs inp₂.Configs) title body pre).2)
    ∧ ((Execute X inp₁ trace).2
        = pre ++ ["GH_TOKEN=" ++ (X.MergeExecutorConfigs inp₁.Configs).GitHub.Token
            ++ " gh issue create --title " ++ Quote X.isPrintWide title
            ++ " --body \x27" ++ body ++ "\x27 --label bug -R "
            ++ (X.MergeExecutorConfigs inp₁.Configs).GitHub.Repository]
      ∧ (Execute X inp₂ trace).2
        = pre ++ ["GH_TOKEN=" ++ (X.MergeExecutorConfigs inp₂.Configs).GitHub.Token
            ++ " gh issue create --title " ++ Quote X.isPrintWide title
            ++ " --body \x27" ++ body ++ "\x27 --label bug -R "
            ++ (X.MergeExecutorConfigs inp₁.Configs).GitHub.Repository]) := by
  have h₁ := Execute_publish X inp₁ trace issue body rerr
    (bind_Issue_of_branch _ create issue hc hi) hr
  have h₂ := Execute_publish X inp₂ trace issue body rerr
    (bind_Issue_of_branch _ create issue (hcmd ▸ hc) hi) (htpl ▸ hr)
  rw [← htitle, ← hpre] at h₁ h₂
  refine ⟨⟨by rw [h₁], by rw [h₂]⟩, ?_, ?_⟩
  · rw [h₁, createGitHubIssue_eq]
  · rw [h₂, createGitHubIssue_eq, hrepo]

/-- Witness of C7: the tokens `t` and `other-token` with the same command. -/
theorem Execute_token_only_in_environment_witness :
    (Execute tokenHost { Configs := ["t"], Command := "create issue mypod -n prod" } []).2
        = ["kubectl logs mypod -n prod --tail 150", "kubectl version -o yaml"]
          ++ ["GH_TOKEN=" ++ "t" ++ " gh issue create --title "
            ++ Quote (fun _ => false) "The `mypod` malfunctions"
            ++ " --body \x27" ++ "Pod report" ++ "\x27 --label bug -R " ++ "acme/widgets"]
      ∧ (Execute tokenHost
          { Configs := ["other-token"], Command := "create issue mypod -n prod" } []).2
        = ["kubectl logs mypod -n prod --tail 150", "kubectl version -o yaml"]
          ++ ["GH_TOKEN=" ++ "other-token" ++ " gh issue create --title "
            ++ Quote (fun _ => false) "The `mypod` malfunctions"
            ++ " --body \x27" ++ "Pod report" ++ "\x27 --label bug -R " ++ "acme/widgets"] :=
  (Execute_token_only_in_environment tokenHost
    { Configs := ["t"], Command := "create issue mypod -n prod" }
    { Configs := ["other-token"], Command := "create issue mypod -n prod" }
    [] ["kubectl logs mypod -n prod --tail 150", "kubectl version -o yaml"]
    { Issue := some { Type_ := "mypod", Namespace := "prod" } }
    { Type_ := "mypod", Namespace := "prod" }
    "The `mypod` malfunctions" "Pod report" none
    rfl rfl rfl rfl rfl (by decide) (by decide) (by decide)).2

end GhPlugin
